import Mathlib

/-!
Verification of the picolog levelled-logging package (Go).

The package lives in two source copies: `src/unnamed/part_000` (the fuller
copy, with the `LogLevel` named type and the full set of level helpers) and
`src/picolog.go`.  The namespace `Picolog` below is a shallow embedding of
`src/unnamed/part_000`; the namespace `PicologGo` embeds the points where
`src/picolog.go` differs textually (its `ParseLogLevel` and its level
helpers), for comparison.

Modelling conventions:
- `LogLevel` is `syslog.Priority`, an integer; all values used by the
  package are the syslog ordinals 0..7, modelled as `Nat`.
- Pointers are modelled explicitly: a `Heap` holds the allocated `Logger`
  records, the allocated `bufio.Writer` objects, and the contents of the
  destination files.  A `*Logger` is an index into `Heap.loggers`, a
  `*bufio.Writer` an index into `Heap.writers`, an `*os.File` an index into
  `Heap.files`.  Allocation appends at the end of the relevant list.
- The standard library `log.Logger` carries a rendered prefix, a flag set
  and an output writer; `log.Logger.Output` formats a header from the
  current time (and caller file/line when `Lshortfile` is set) and appends
  the line to the writer's buffer.  Time and caller location are inputs of
  the model (`DateTime`, `file`, `line` arguments).
- `fmt.Sprintf(format, v...)` is modelled by passing the already-formatted
  message string `msg`.
-/

namespace Picolog

/-- Syslog severity ordinal `LOG_EMERG` (from the Go `log/syslog` package). -/
def LOG_EMERG : Nat := 0

/-- Syslog severity ordinal `LOG_ALERT`. -/
def LOG_ALERT : Nat := 1

/-- Syslog severity ordinal `LOG_CRIT`. -/
def LOG_CRIT : Nat := 2

/-- Syslog severity ordinal `LOG_ERR`. -/
def LOG_ERR : Nat := 3

/-- Syslog severity ordinal `LOG_WARNING`. -/
def LOG_WARNING : Nat := 4

/-- Syslog severity ordinal `LOG_NOTICE`. -/
def LOG_NOTICE : Nat := 5

/-- Syslog severity ordinal `LOG_INFO`. -/
def LOG_INFO : Nat := 6

/-- Syslog severity ordinal `LOG_DEBUG`. -/
def LOG_DEBUG : Nat := 7

/-- Package constant `LogDebug` (part_000 line 35). -/
def LogDebug : Nat := LOG_DEBUG

/-- Package constant `LogInfo` (part_000 line 36). -/
def LogInfo : Nat := LOG_INFO

/-- Package constant `LogNotice` (part_000 line 37). -/
def LogNotice : Nat := LOG_NOTICE

/-- Package constant `LogWarning` (part_000 line 38). -/
def LogWarning : Nat := LOG_WARNING

/-- Package constant `LogErr` (part_000 line 39). -/
def LogErr : Nat := LOG_ERR

/-- Package constant `LogCrit` (part_000 line 40). -/
def LogCrit : Nat := LOG_CRIT

/-- Package constant `LogAlert` (part_000 line 41). -/
def LogAlert : Nat := LOG_ALERT

/-- Package constant `LogEmerg` (part_000 line 42). -/
def LogEmerg : Nat := LOG_EMERG

/-- ASCII lower-casing of one character, as Go `strings.ToLower` acts on
the ASCII range (the only range the level names use). -/
def goToLowerChar (c : Char) : Char :=
  if 'A' ≤ c ∧ c ≤ 'Z' then Char.ofNat (c.toNat + 32) else c

/-- Model of Go `strings.ToLower` on ASCII strings. -/
def goToLower (s : String) : String :=
  String.mk (s.data.map goToLowerChar)

/-- ASCII upper-casing of one character, as Go `strings.ToUpper` acts on
the ASCII range. -/
def goToUpperChar (c : Char) : Char :=
  if 'a' ≤ c ∧ c ≤ 'z' then Char.ofNat (c.toNat - 32) else c

/-- Model of Go `strings.ToUpper` on ASCII strings. -/
def goToUpper (s : String) : String :=
  String.mk (s.data.map goToUpperChar)

/-- `ParseLogLevel` (part_000 lines 47-68): lower-case the input, then match
it against the eight syslog level names; any other string is an error. -/
def ParseLogLevel (level : String) : Except String Nat :=
  let l := goToLower level
  if l = "emerg" then Except.ok LOG_EMERG
  else if l = "alert" then Except.ok LOG_ALERT
  else if l = "crit" then Except.ok LOG_CRIT
  else if l = "err" then Except.ok LOG_ERR
  else if l = "warning" then Except.ok LOG_WARNING
  else if l = "notice" then Except.ok LOG_NOTICE
  else if l = "info" then Except.ok LOG_INFO
  else if l = "debug" then Except.ok LOG_DEBUG
  else Except.error ("Invalid log level: " ++ l)

/-- The `String` method of `LogLevel` (part_000 lines 72-92): the lowercase
name of a level, or `"invalid log level"` for any other integer. -/
def LogLevelString (l : Nat) : String :=
  if l = LOG_EMERG then "emerg"
  else if l = LOG_ALERT then "alert"
  else if l = LOG_CRIT then "crit"
  else if l = LOG_ERR then "err"
  else if l = LOG_WARNING then "warning"
  else if l = LOG_NOTICE then "notice"
  else if l = LOG_INFO then "info"
  else if l = LOG_DEBUG then "debug"
  else "invalid log level"

/-- Standard library `log` flag `Ldate` (date in the local time zone,
rendered `2009/01/23`, i.e. year/month/day). -/
def Ldate : Nat := 1

/-- Standard library `log` flag `Ltime` (time rendered `01:23:23`). -/
def Ltime : Nat := 2

/-- Standard library `log` flag `Lmicroseconds`. -/
def Lmicroseconds : Nat := 4

/-- Standard library `log` flag `Llongfile`. -/
def Llongfile : Nat := 8

/-- Standard library `log` flag `Lshortfile` (final file name element and
line number, rendered `d.go:23: `). -/
def Lshortfile : Nat := 16

/-- A wall-clock instant, broken into the fields the `log` header uses. -/
structure DateTime where
  year : Nat
  month : Nat
  day : Nat
  hour : Nat
  minute : Nat
  second : Nat
deriving DecidableEq, Repr

/-- Zero-pad a decimal rendering on the left to width `w`, as the `log`
package's `itoa` does. -/
def itoa (n w : Nat) : String :=
  String.mk (List.replicate (w - (Nat.repr n).length) '0') ++ Nat.repr n

/-- Header of one log line, as `log.Logger.formatHeader` builds it for the
flag combinations this package uses: the rendered prefix, then with `Ldate`
the date as `YYYY/MM/DD `, then with `Ltime` the time as `HH:MM:SS `, then
with `Lshortfile` or `Llongfile` the caller location as `file:line: `. -/
def formatHeader (pfx : String) (flags : Nat) (t : DateTime) (file : String)
    (line : Nat) : String :=
  pfx
  ++ (if flags &&& Ldate ≠ 0 then
        itoa t.year 4 ++ "/" ++ itoa t.month 2 ++ "/" ++ itoa t.day 2 ++ " "
      else "")
  ++ (if flags &&& Ltime ≠ 0 then
        itoa t.hour 2 ++ ":" ++ itoa t.minute 2 ++ ":" ++ itoa t.second 2 ++ " "
      else "")
  ++ (if flags &&& (Lshortfile ||| Llongfile) ≠ 0 then
        file ++ ":" ++ Nat.repr line ++ ": "
      else "")

/-- Whether the message already ends in a newline; `log.Logger.Output`
appends `"\n"` exactly when it does not (or the message is empty). -/
def goHasFinalNewline (s : String) : Bool :=
  match s.data.getLast? with
  | some c => c = '\n'
  | none => false

/-- The full text `log.Logger.Output` appends to the writer for message
`msg`: header, message, and a trailing newline when `msg` lacks one. -/
def logLine (pfx : String) (flags : Nat) (t : DateTime) (file : String)
    (line : Nat) (msg : String) : String :=
  formatHeader pfx flags t file line ++ msg
    ++ (if goHasFinalNewline msg then "" else "\n")

/-- The state of a standard library `log.Logger`: rendered prefix, flags,
and the writer it outputs to (an index into `Heap.writers`). -/
structure LogCore where
  corePfx : String
  flags : Nat
  out : Nat
deriving DecidableEq, Repr

/-- The `Logger` struct (part_000 lines 19-27).  `logLevel` is the
threshold; `logger` is the `*log.Logger` (`none` models a nil pointer);
`writer` indexes the `*bufio.Writer` in `Heap.writers`; `destStream`
indexes the `*os.File` in `Heap.files`; `pfx` is the stored `prefix`
field; `subloggers` holds child pointers; `inited` is the `initialized`
flag. -/
structure Logger where
  logLevel : Nat
  logger : Option LogCore
  writer : Nat
  destStream : Nat
  pfx : String
  subloggers : List Nat
  inited : Bool
deriving DecidableEq, Repr

/-- The zero value of `Logger`: what an uninitialized Go `Logger` holds. -/
def zeroLogger : Logger :=
  { logLevel := 0, logger := none, writer := 0, destStream := 0, pfx := ""
    subloggers := [], inited := false }

/-- A `bufio.Writer`: its buffered content and the file it wraps. -/
structure Writer where
  buf : String
  dest : Nat
deriving DecidableEq, Repr

/-- The zero value of `Writer`. -/
def zeroWriter : Writer := { buf := "", dest := 0 }

/-- The mutable store: allocated `Logger` records, allocated `bufio.Writer`
objects, and the contents written to each destination file. -/
structure Heap where
  loggers : List Logger
  writers : List Writer
  files : List String
deriving DecidableEq, Repr

/-- The flags `NewLogger` picks for threshold `logLevel` (part_000 lines
100-104): `Ldate|Ltime`, plus `Lshortfile` when logging at `LOG_DEBUG`. -/
def flagsOf (logLevel : Nat) : Nat :=
  if logLevel = LOG_DEBUG then (Ldate ||| Ltime) ||| Lshortfile
  else Ldate ||| Ltime

/-- `NewLogger` (part_000 lines 97-112): allocate a fresh `bufio.Writer` on
`dest`, render the prefix as `"[" ++ subpackage ++ "] "`, build the
`log.Logger`, mark the record initialized, and allocate it; returns the
updated heap and the new `*Logger`. -/
def NewLogger (h : Heap) (logLevel : Nat) (subpackage : String) (dest : Nat) :
    Heap × Nat :=
  let wptr := h.writers.length
  let lg : Logger :=
    { logLevel := logLevel
      logger := some { corePfx := "[" ++ subpackage ++ "] "
                       flags := flagsOf logLevel, out := wptr }
      writer := wptr, destStream := dest, pfx := subpackage
      subloggers := [], inited := true }
  ({ loggers := h.loggers ++ [lg]
     writers := h.writers ++ [{ buf := "", dest := dest }]
     files := h.files }, h.loggers.length)

/-- The file index modelling `os.Stderr`. -/
def stderrFd : Nat := 2

/-- `NewDefaultLogger` (part_000 lines 117-119): a logger at `LogDebug`
with prefix `"default"` writing to stderr. -/
def NewDefaultLogger (h : Heap) : Heap × Nat :=
  NewLogger h LogDebug "default" stderrFd

/-- The source's `initializeDefaultLogger` (part_000 lines 123-126):
allocates a default logger and assigns it to the method's local receiver
variable `l`.  The returned pointer is the final value of that local; Go
passes the receiver pointer by value, so the caller's pointer and the
pointed-to record are untouched. -/
def initDefaultLogger (h : Heap) (l : Nat) : Heap × Nat :=
  let r := NewDefaultLogger h
  (r.1, r.2)

/-- The source's `ensureInitialized` (part_000 lines 130-134): if the
record's `initialized` flag is unset, run `initializeDefaultLogger`, whose
local result is discarded. -/
def ensureInited (h : Heap) (l : Nat) : Heap :=
  if !(h.loggers.getD l zeroLogger).inited then (initDefaultLogger h l).1
  else h

/-- `NewSubLogger` (part_000 lines 139-144): build the child prefix
`parent ++ "][" ++ pfx`, create the child with the parent's threshold and
destination stream, and append it to the parent's `subloggers` list. -/
def NewSubLogger (h : Heap) (l : Nat) (pfx : String) : Heap × Nat :=
  let par := h.loggers.getD l zeroLogger
  let subPfx := par.pfx ++ "][" ++ pfx
  let r := NewLogger h par.logLevel subPfx par.destStream
  let par1 := r.1.loggers.getD l zeroLogger
  ({ r.1 with
     loggers := r.1.loggers.set l { par1 with subloggers := par1.subloggers ++ [r.2] } },
   r.2)

/-- `log.Logger.Output` on logger state `core`: append the formatted line
for `msg` to the buffer of the writer `core.out`.  The `calldepth`
argument of the source only selects which caller's `file`/`line` appear;
those are inputs here. -/
def Output (h : Heap) (core : LogCore) (t : DateTime) (file : String)
    (line : Nat) (msg : String) : Heap :=
  let w := h.writers.getD core.out zeroWriter
  { h with
    writers := h.writers.set core.out
      { w with buf := w.buf ++ logLine core.corePfx core.flags t file line msg } }

/-- `bufio.Writer.Flush` on the writer at index `wp`: move the buffered
content to the destination file and empty the buffer. -/
def Flush (h : Heap) (wp : Nat) : Heap :=
  let w := h.writers.getD wp zeroWriter
  { h with
    files := h.files.set w.dest (h.files.getD w.dest "" ++ w.buf)
    writers := h.writers.set wp { w with buf := "" } }

/-- `Printf` (part_000 lines 148-159): run `ensureInitialized`, and when
`level ≤ l.logLevel` output the message through the `log.Logger` and flush
the writer.  The returned `Bool` is `true` when the call panics: an
uninitialized record has a nil `logger`, so `l.logger.Output` dereferences
nil.  `msg` stands for `fmt.Sprintf(format, v...)`. -/
def Printf (h : Heap) (l : Nat) (msg : String) (level : Nat) (t : DateTime)
    (file : String) (line : Nat) : Heap × Bool :=
  let h1 := ensureInited h l
  let lg := h1.loggers.getD l zeroLogger
  if level ≤ lg.logLevel then
    match lg.logger with
    | none => (h1, true)
    | some core =>
      let h2 := Output h1 core t file line msg
      (Flush h2 lg.writer, false)
  else (h1, false)

/-- `Debugf` (part_000 lines 162-164): `Printf` at `LogDebug`. -/
def Debugf (h : Heap) (l : Nat) (msg : String) (t : DateTime) (file : String)
    (line : Nat) : Heap × Bool :=
  Printf h l msg LogDebug t file line

/-- `Errorf` (part_000 lines 167-169): `Printf` at `LogErr`. -/
def Errorf (h : Heap) (l : Nat) (msg : String) (t : DateTime) (file : String)
    (line : Nat) : Heap × Bool :=
  Printf h l msg LogErr t file line

/-- `Warningf` (part_000 lines 172-174): `Printf` at `LogWarning`. -/
def Warningf (h : Heap) (l : Nat) (msg : String) (t : DateTime) (file : String)
    (line : Nat) : Heap × Bool :=
  Printf h l msg LogWarning t file line

/-- `Fatalf` (part_000 lines 178-181): `Printf` at `LogErr`, then
`os.Exit(1)` (the exit is outside the heap model).  Note the source's own
doc comment says `Fatalf` logs at LOG_CRIT. -/
def Fatalf (h : Heap) (l : Nat) (msg : String) (t : DateTime) (file : String)
    (line : Nat) : Heap × Bool :=
  Printf h l msg LogErr t file line

/-- `Infof` (part_000 lines 184-186): `Printf` at `LogInfo`. -/
def Infof (h : Heap) (l : Nat) (msg : String) (t : DateTime) (file : String)
    (line : Nat) : Heap × Bool :=
  Printf h l msg LogInfo t file line

/-- `Emergf` (part_000 lines 189-191): `Printf` at `LogEmerg`. -/
def Emergf (h : Heap) (l : Nat) (msg : String) (t : DateTime) (file : String)
    (line : Nat) : Heap × Bool :=
  Printf h l msg LogEmerg t file line

/-- `Alertf` (part_000 lines 194-196): `Printf` at `LogAlert`. -/
def Alertf (h : Heap) (l : Nat) (msg : String) (t : DateTime) (file : String)
    (line : Nat) : Heap × Bool :=
  Printf h l msg LogAlert t file line

/-- `Noticef` (part_000 lines 199-201): `Printf` at `LogNotice`. -/
def Noticef (h : Heap) (l : Nat) (msg : String) (t : DateTime) (file : String)
    (line : Nat) : Heap × Bool :=
  Printf h l msg LogNotice t file line

/-- The stored prefix a chain of sublogger creations yields: starting from
`root`, each step appends `"][" ++ name`. -/
def chainPfx (root : String) (names : List String) : String :=
  names.foldl (fun acc c => acc ++ "][" ++ c) root

/-- Create a root logger with `NewLogger` and then a nested chain of
subloggers named by `names`, returning the heap and the innermost
logger. -/
def mkLoggerChain (h : Heap) (logLevel : Nat) (root : String) (dest : Nat)
    (names : List String) : Heap × Nat :=
  names.foldl (fun r c => NewSubLogger r.1 r.2 c) (NewLogger h logLevel root dest)

end Picolog

namespace PicologGo

/-- `ParseLogLevel` of `src/picolog.go` (lines 25-46): textually the same
switch as part_000's, returning `syslog.Priority` values directly. -/
def ParseLogLevel (level : String) : Except String Nat :=
  let l := Picolog.goToLower level
  if l = "emerg" then Except.ok Picolog.LOG_EMERG
  else if l = "alert" then Except.ok Picolog.LOG_ALERT
  else if l = "crit" then Except.ok Picolog.LOG_CRIT
  else if l = "err" then Except.ok Picolog.LOG_ERR
  else if l = "warning" then Except.ok Picolog.LOG_WARNING
  else if l = "notice" then Except.ok Picolog.LOG_NOTICE
  else if l = "info" then Except.ok Picolog.LOG_INFO
  else if l = "debug" then Except.ok Picolog.LOG_DEBUG
  else Except.error ("Invalid log level: " ++ l)

/-- `Debugf` of `src/picolog.go` (lines 116-118): `Printf` at
`syslog.LOG_DEBUG`.  `picolog.go`'s `Printf`, `NewLogger`, `NewSubLogger`
and `ensureInitialized` are textually identical to part_000's, so the
helpers reuse `Picolog.Printf`. -/
def Debugf (h : Picolog.Heap) (l : Nat) (msg : String) (t : Picolog.DateTime)
    (file : String) (line : Nat) : Picolog.Heap × Bool :=
  Picolog.Printf h l msg Picolog.LOG_DEBUG t file line

/-- `Errorf` of `src/picolog.go` (lines 121-123): `Printf` at
`syslog.LOG_ERR`. -/
def Errorf (h : Picolog.Heap) (l : Nat) (msg : String) (t : Picolog.DateTime)
    (file : String) (line : Nat) : Picolog.Heap × Bool :=
  Picolog.Printf h l msg Picolog.LOG_ERR t file line

/-- `Warningf` of `src/picolog.go` (lines 126-128): `Printf` at
`syslog.LOG_WARNING`. -/
def Warningf (h : Picolog.Heap) (l : Nat) (msg : String) (t : Picolog.DateTime)
    (file : String) (line : Nat) : Picolog.Heap × Bool :=
  Picolog.Printf h l msg Picolog.LOG_WARNING t file line

/-- `Fatalf` of `src/picolog.go` (lines 132-135): `Printf` at
`syslog.LOG_CRIT`, then `os.Exit(1)`. -/
def Fatalf (h : Picolog.Heap) (l : Nat) (msg : String) (t : Picolog.DateTime)
    (file : String) (line : Nat) : Picolog.Heap × Bool :=
  Picolog.Printf h l msg Picolog.LOG_CRIT t file line

/-- `Infof` of `src/picolog.go` (lines 138-140): `Printf` at
`syslog.LOG_INFO`. -/
def Infof (h : Picolog.Heap) (l : Nat) (msg : String) (t : Picolog.DateTime)
    (file : String) (line : Nat) : Picolog.Heap × Bool :=
  Picolog.Printf h l msg Picolog.LOG_INFO t file line

end PicologGo

instance : DecidableEq (Except String Nat) := fun a b =>
  match a, b with
  | Except.ok x, Except.ok y =>
    if h : x = y then isTrue (congrArg Except.ok h)
    else isFalse (fun he => h (Except.ok.inj he))
  | Except.error e, Except.error f =>
    if h : e = f then isTrue (congrArg Except.error h)
    else isFalse (fun he => h (Except.error.inj he))
  | Except.ok _, Except.error _ => isFalse (fun he => Except.noConfusion he)
  | Except.error _, Except.ok _ => isFalse (fun he => Except.noConfusion he)

open Picolog

/-! Helper lemmas about list indexing, used to read the heap model. -/

theorem getD_append_left {α : Type} (l l' : List α) (n : Nat) (d : α)
    (h : n < l.length) : (l ++ l').getD n d = l.getD n d := by
  induction l generalizing n with
  | nil => simp at h
  | cons a t ih =>
    cases n with
    | zero => rfl
    | succ m => exact ih m (Nat.lt_of_succ_lt_succ h)

theorem getD_concat_self {α : Type} (l : List α) (x d : α) :
    (l ++ [x]).getD l.length d = x := by
  induction l with
  | nil => rfl
  | cons a t ih => exact ih

theorem getD_set_self {α : Type} (l : List α) (n : Nat) (x d : α)
    (h : n < l.length) : (l.set n x).getD n d = x := by
  induction l generalizing n with
  | nil => simp at h
  | cons a t ih =>
    cases n with
    | zero => rfl
    | succ m => exact ih m (Nat.lt_of_succ_lt_succ h)

theorem getD_set_ne {α : Type} (l : List α) (n m : Nat) (x d : α)
    (h : n ≠ m) : (l.set n x).getD m d = l.getD m d := by
  induction l generalizing n m with
  | nil => rfl
  | cons a t ih =>
    cases n with
    | zero =>
      cases m with
      | zero => exact absurd rfl h
      | succ k => rfl
    | succ j =>
      cases m with
      | zero => rfl
      | succ k => exact ih j k (fun he => h (congrArg Nat.succ he))

/-! Helper lemmas about strings. -/

theorem str_length_append (a b : String) : (a ++ b).length = a.length + b.length := by
  cases a with
  | mk da =>
    cases b with
    | mk db =>
      show (String.mk (da ++ db)).length = (String.mk da).length + (String.mk db).length
      simp [String.length]

theorem str_eq_empty_of_length_zero (s : String) (h : s.length = 0) : s = "" := by
  cases s with
  | mk d =>
    cases d with
    | nil => rfl
    | cons a t => simp [String.length] at h

theorem append_ne_left (a b : String) (hb : b ≠ "") : a ++ b ≠ a := by
  intro he
  apply hb
  apply str_eq_empty_of_length_zero
  have hl : (a ++ b).length = a.length := by rw [he]
  rw [str_length_append] at hl
  omega

theorem logLine_length_pos (pfx : String) (flags : Nat) (t : DateTime)
    (file : String) (ln : Nat) (msg : String) :
    0 < (logLine pfx flags t file ln msg).length := by
  unfold logLine
  rw [str_length_append, str_length_append]
  cases hnl : goHasFinalNewline msg with
  | false =>
    have h1 : (if (false : Bool) = true then ("" : String) else "\n") = "\n" := rfl
    rw [h1]
    have h2 : ("\n" : String).length = 1 := rfl
    omega
  | true =>
    have h1 : (if (true : Bool) = true then ("" : String) else "\n") = "" := rfl
    rw [h1]
    have hmsg : msg.length ≠ 0 := by
      intro h0
      have he : msg = "" := str_eq_empty_of_length_zero msg h0
      rw [he] at hnl
      exact absurd hnl (by decide)
    have h2 : ("" : String).length = 0 := rfl
    omega

theorem logLine_ne_empty (pfx : String) (flags : Nat) (t : DateTime)
    (file : String) (ln : Nat) (msg : String) :
    logLine pfx flags t file ln msg ≠ "" := by
  intro he
  have := logLine_length_pos pfx flags t file ln msg
  rw [he] at this
  simp [String.length] at this

/-! Master lemmas describing one `Printf` call on an initialized logger. -/

theorem ensureInited_of_inited (h : Heap) (p : Nat)
    (hinit : (h.loggers.getD p zeroLogger).inited = true) :
    ensureInited h p = h := by
  unfold ensureInited
  rw [hinit]
  rfl

theorem printf_emit_spec (h : Heap) (p : Nat) (msg : String) (S : Nat)
    (t : DateTime) (file : String) (ln : Nat) (core : LogCore) (w d : Nat)
    (hinit : (h.loggers.getD p zeroLogger).inited = true)
    (hcore : (h.loggers.getD p zeroLogger).logger = some core)
    (hout : core.out = w)
    (hwr : (h.loggers.getD p zeroLogger).writer = w)
    (hwlen : w < h.writers.length)
    (hdest : (h.writers.getD w zeroWriter).dest = d)
    (hS : S ≤ (h.loggers.getD p zeroLogger).logLevel) :
    Printf h p msg S t file ln =
      ({ loggers := h.loggers
         writers := h.writers.set w { buf := "", dest := d }
         files := h.files.set d (h.files.getD d "" ++
           ((h.writers.getD w zeroWriter).buf
             ++ logLine core.corePfx core.flags t file ln msg)) }, false) := by
  have he : ensureInited h p = h := ensureInited_of_inited h p hinit
  simp only [Printf, he, hcore, hwr, if_pos hS]
  simp only [Output, Flush, hout]
  rw [getD_set_self h.writers w _ zeroWriter hwlen]
  simp only [List.set_set, hdest]

theorem printf_skip_spec (h : Heap) (p : Nat) (msg : String) (S : Nat)
    (t : DateTime) (file : String) (ln : Nat)
    (hinit : (h.loggers.getD p zeroLogger).inited = true)
    (hS : ¬ S ≤ (h.loggers.getD p zeroLogger).logLevel) :
    Printf h p msg S t file ln = (h, false) := by
  have he : ensureInited h p = h := ensureInited_of_inited h p hinit
  simp only [Printf, he, if_neg hS]

theorem str_append_assoc (a b c : String) : (a ++ b) ++ c = a ++ (b ++ c) := by
  cases a with
  | mk x =>
    cases b with
    | mk y =>
      cases c with
      | mk z =>
        show String.mk ((x ++ y) ++ z) = String.mk (x ++ (y ++ z))
        rw [List.append_assoc]

theorem str_append_empty (s : String) : s ++ "" = s := by
  cases s with
  | mk d =>
    show String.mk (d ++ []) = String.mk d
    rw [List.append_nil]

theorem str_empty_append (s : String) : "" ++ s = s := by
  cases s with
  | mk d =>
    show String.mk ([] ++ d) = String.mk d
    rw [List.nil_append]

theorem formatHeader_flags3 (pfx : String) (t : DateTime) (file : String) (ln : Nat) :
    formatHeader pfx 3 t file ln
      = pfx ++ (itoa t.year 4 ++ "/" ++ itoa t.month 2 ++ "/" ++ itoa t.day 2 ++ " ")
        ++ (itoa t.hour 2 ++ ":" ++ itoa t.minute 2 ++ ":" ++ itoa t.second 2 ++ " ") := by
  unfold formatHeader
  rw [if_pos (by decide : (3 : Nat) &&& Ldate ≠ 0),
      if_pos (by decide : (3 : Nat) &&& Ltime ≠ 0),
      if_neg (by decide : ¬ ((3 : Nat) &&& (Lshortfile ||| Llongfile) ≠ 0)),
      str_append_empty]

/-- Claim C1: for a logger with threshold `T` and a message logged through
`Printf` at severity `S` (the level helpers are `Printf` at a fixed `S`),
the message is written to the destination file iff `S ≤ T`; when `S > T`
the heap is untouched.  The hypotheses say the record at `p` is an
initialized logger whose `log.Logger` writes to its own `bufio.Writer` `w`
wrapping destination file `d`, as every logger built by `NewLogger` is. -/
theorem c1_emit_iff_le_threshold
    (h : Heap) (p : Nat) (msg : String) (S : Nat) (t : DateTime)
    (file : String) (ln : Nat) (core : LogCore) (w d : Nat)
    (hinit : (h.loggers.getD p zeroLogger).inited = true)
    (hcore : (h.loggers.getD p zeroLogger).logger = some core)
    (hout : core.out = w)
    (hwr : (h.loggers.getD p zeroLogger).writer = w)
    (hwlen : w < h.writers.length)
    (hdest : (h.writers.getD w zeroWriter).dest = d)
    (hdlen : d < h.files.length) :
    ((Printf h p msg S t file ln).1.files.getD d "" ≠ h.files.getD d ""
      ↔ S ≤ (h.loggers.getD p zeroLogger).logLevel)
    ∧ (S ≤ (h.loggers.getD p zeroLogger).logLevel →
        (Printf h p msg S t file ln).1.files.getD d ""
          = h.files.getD d "" ++ (h.writers.getD w zeroWriter).buf
            ++ logLine core.corePfx core.flags t file ln msg)
    ∧ (¬ S ≤ (h.loggers.getD p zeroLogger).logLevel →
        (Printf h p msg S t file ln).1 = h) := by
  by_cases hS : S ≤ (h.loggers.getD p zeroLogger).logLevel
  · have hres := printf_emit_spec h p msg S t file ln core w d hinit hcore hout
      hwr hwlen hdest hS
    have hXne : (h.writers.getD w zeroWriter).buf
        ++ logLine core.corePfx core.flags t file ln msg ≠ "" := by
      intro he0
      have hlpos := logLine_length_pos core.corePfx core.flags t file ln msg
      have hlen : ((h.writers.getD w zeroWriter).buf
          ++ logLine core.corePfx core.flags t file ln msg).length = 0 := by
        rw [he0]
        rfl
      rw [str_length_append] at hlen
      omega
    rw [hres]
    have hfget : ((h.files.set d (h.files.getD d "" ++
        ((h.writers.getD w zeroWriter).buf
          ++ logLine core.corePfx core.flags t file ln msg)))).getD d ""
        = h.files.getD d "" ++
        ((h.writers.getD w zeroWriter).buf
          ++ logLine core.corePfx core.flags t file ln msg) :=
      getD_set_self h.files d _ "" hdlen
    refine ⟨?_, ?_, ?_⟩
    · rw [hfget]
      exact ⟨fun _ => hS, fun _ => append_ne_left _ _ hXne⟩
    · intro _
      rw [hfget, str_append_assoc]
    · intro hn
      exact absurd hS hn
  · have hres := printf_skip_spec h p msg S t file ln hinit hS
    rw [hres]
    refine ⟨⟨fun hne => absurd rfl hne, fun hle => absurd hle hS⟩, ?_, ?_⟩
    · intro hle
      exact absurd hle hS
    · intro _
      rfl

/-- Witness for C1: a fresh `NewLogger` at INFO on an empty file emits an
INFO message, the file receiving exactly the flushed line. -/
theorem c1_witness :
    (Printf (NewLogger ⟨[], [], [""]⟩ LOG_INFO "example" 0).1 0 "hi" LOG_INFO
        ⟨2014, 1, 23, 10, 11, 12⟩ "main.go" 5).1.files.getD 0 ""
      = ((NewLogger ⟨[], [], [""]⟩ LOG_INFO "example" 0).1.files.getD 0 "")
        ++ ((NewLogger ⟨[], [], [""]⟩ LOG_INFO "example" 0).1.writers.getD 0
            zeroWriter).buf
        ++ logLine "[example] " 3 ⟨2014, 1, 23, 10, 11, 12⟩ "main.go" 5 "hi" :=
  (c1_emit_iff_le_threshold (NewLogger ⟨[], [], [""]⟩ LOG_INFO "example" 0).1 0 "hi"
    LOG_INFO ⟨2014, 1, 23, 10, 11, 12⟩ "main.go" 5
    { corePfx := "[example] ", flags := 3, out := 0 } 0 0
    (by decide) (by decide) rfl (by decide) (by decide) (by decide) (by decide)).2.1
    (by decide)

/-- Claim C8: a `Printf` call whose severity passes the threshold flushes
the buffered writer right after writing: afterwards the writer's buffer is
empty and the destination file holds the old contents, the previously
buffered text, and the new line. -/
theorem c8_flush_after_emit
    (h : Heap) (p : Nat) (msg : String) (S : Nat) (t : DateTime)
    (file : String) (ln : Nat) (core : LogCore) (w d : Nat)
    (hinit : (h.loggers.getD p zeroLogger).inited = true)
    (hcore : (h.loggers.getD p zeroLogger).logger = some core)
    (hout : core.out = w)
    (hwr : (h.loggers.getD p zeroLogger).writer = w)
    (hwlen : w < h.writers.length)
    (hdest : (h.writers.getD w zeroWriter).dest = d)
    (hdlen : d < h.files.length)
    (hS : S ≤ (h.loggers.getD p zeroLogger).logLevel) :
    ((Printf h p msg S t file ln).1.writers.getD w zeroWriter).buf = ""
    ∧ (Printf h p msg S t file ln).1.files.getD d ""
        = h.files.getD d "" ++ (h.writers.getD w zeroWriter).buf
          ++ logLine core.corePfx core.flags t file ln msg := by
  have hres := printf_emit_spec h p msg S t file ln core w d hinit hcore hout
    hwr hwlen hdest hS
  rw [hres]
  constructor
  · rw [getD_set_self h.writers w _ zeroWriter hwlen]
  · rw [getD_set_self h.files d _ "" hdlen, str_append_assoc]

/-- Witness for C8: after the emitted INFO message of the C1 witness
scenario the writer's buffer is empty. -/
theorem c8_witness :
    ((Printf (NewLogger ⟨[], [], [""]⟩ LOG_INFO "example" 0).1 0 "hi" LOG_INFO
        ⟨2014, 1, 23, 10, 11, 12⟩ "main.go" 5).1.writers.getD 0 zeroWriter).buf = "" :=
  (c8_flush_after_emit (NewLogger ⟨[], [], [""]⟩ LOG_INFO "example" 0).1 0 "hi"
    LOG_INFO ⟨2014, 1, 23, 10, 11, 12⟩ "main.go" 5
    { corePfx := "[example] ", flags := 3, out := 0 } 0 0
    (by decide) (by decide) rfl (by decide) (by decide) (by decide) (by decide)
    (by decide)).1

theorem subLogger_step (h : Heap) (p : Nat) (c : String)
    (hp : p < h.loggers.length) :
    (NewSubLogger h p c).2 < (NewSubLogger h p c).1.loggers.length
    ∧ ((NewSubLogger h p c).1.loggers.getD (NewSubLogger h p c).2 zeroLogger).pfx
        = (h.loggers.getD p zeroLogger).pfx ++ "][" ++ c
    ∧ (((NewSubLogger h p c).1.loggers.getD (NewSubLogger h p c).2 zeroLogger).logger.map
        LogCore.corePfx)
        = some ("[" ++ ((h.loggers.getD p zeroLogger).pfx ++ "][" ++ c) ++ "] ")
    ∧ ((NewSubLogger h p c).1.loggers.getD (NewSubLogger h p c).2 zeroLogger).logLevel
        = (h.loggers.getD p zeroLogger).logLevel
    ∧ ((NewSubLogger h p c).1.loggers.getD (NewSubLogger h p c).2 zeroLogger).destStream
        = (h.loggers.getD p zeroLogger).destStream := by
  simp only [NewSubLogger, NewLogger]
  rw [getD_set_ne _ p _ _ _ (Nat.ne_of_lt hp), getD_concat_self]
  refine ⟨?_, rfl, rfl, rfl, rfl⟩
  rw [List.length_set, List.length_append]
  simp

theorem chain_inv (names : List String) : ∀ (h : Heap) (p : Nat),
    p < h.loggers.length →
    ((h.loggers.getD p zeroLogger).logger.map LogCore.corePfx)
      = some ("[" ++ (h.loggers.getD p zeroLogger).pfx ++ "] ") →
    (names.foldl (fun r c => NewSubLogger r.1 r.2 c) (h, p)).2
      < (names.foldl (fun r c => NewSubLogger r.1 r.2 c) (h, p)).1.loggers.length
    ∧ ((names.foldl (fun r c => NewSubLogger r.1 r.2 c) (h, p)).1.loggers.getD
        (names.foldl (fun r c => NewSubLogger r.1 r.2 c) (h, p)).2 zeroLogger).pfx
        = chainPfx (h.loggers.getD p zeroLogger).pfx names
    ∧ (((names.foldl (fun r c => NewSubLogger r.1 r.2 c) (h, p)).1.loggers.getD
        (names.foldl (fun r c => NewSubLogger r.1 r.2 c) (h, p)).2 zeroLogger).logger.map
        LogCore.corePfx)
        = some ("[" ++ chainPfx (h.loggers.getD p zeroLogger).pfx names ++ "] ")
    ∧ ((names.foldl (fun r c => NewSubLogger r.1 r.2 c) (h, p)).1.loggers.getD
        (names.foldl (fun r c => NewSubLogger r.1 r.2 c) (h, p)).2 zeroLogger).logLevel
        = (h.loggers.getD p zeroLogger).logLevel
    ∧ ((names.foldl (fun r c => NewSubLogger r.1 r.2 c) (h, p)).1.loggers.getD
        (names.foldl (fun r c => NewSubLogger r.1 r.2 c) (h, p)).2 zeroLogger).destStream
        = (h.loggers.getD p zeroLogger).destStream := by
  induction names with
  | nil =>
    intro h p hp hmap
    exact ⟨hp, rfl, hmap, rfl, rfl⟩
  | cons c cs ih =>
    intro h p hp hmap
    obtain ⟨hA, hB, hC, hD, hE⟩ := subLogger_step h p c hp
    have hmap' : (((NewSubLogger h p c).1.loggers.getD (NewSubLogger h p c).2
        zeroLogger).logger.map LogCore.corePfx)
        = some ("[" ++ ((NewSubLogger h p c).1.loggers.getD (NewSubLogger h p c).2
            zeroLogger).pfx ++ "] ") := by
      rw [hB, hC]
    have hres := ih (NewSubLogger h p c).1 (NewSubLogger h p c).2 hA hmap'
    rw [hB, hD, hE] at hres
    simp only [List.foldl_cons]
    have hch : chainPfx (h.loggers.getD p zeroLogger).pfx (c :: cs)
        = chainPfx ((h.loggers.getD p zeroLogger).pfx ++ "][" ++ c) cs := rfl
    rw [hch]
    exact hres

/-- Claim C2: `NewSubLogger` stores the prefix `parent ++ "][" ++ child`,
and an arbitrarily deep chain of subloggers renders its prefix (the one
the `log.Logger` prints) as `"[" ++ P1 ++ "][" ++ ... ++ Pn ++ "] "`,
i.e. `[P1][P2]...[Pn]` followed by a space, where `chainPfx` is the
`"]["`-joined concatenation of the ancestor names. -/
theorem c2_sublogger_prefix_concat :
    (∀ (h : Heap) (p : Nat) (c : String), p < h.loggers.length →
      ((NewSubLogger h p c).1.loggers.getD (NewSubLogger h p c).2 zeroLogger).pfx
        = (h.loggers.getD p zeroLogger).pfx ++ "][" ++ c)
    ∧ (∀ (h : Heap) (T : Nat) (root : String) (d : Nat) (names : List String),
      ((mkLoggerChain h T root d names).1.loggers.getD
          (mkLoggerChain h T root d names).2 zeroLogger).pfx = chainPfx root names
      ∧ (((mkLoggerChain h T root d names).1.loggers.getD
          (mkLoggerChain h T root d names).2 zeroLogger).logger.map LogCore.corePfx)
          = some ("[" ++ chainPfx root names ++ "] ")) := by
  constructor
  · intro h p c hp
    exact (subLogger_step h p c hp).2.1
  · intro h T root d names
    have hp0 : (NewLogger h T root d).2 < (NewLogger h T root d).1.loggers.length := by
      simp only [NewLogger]
      rw [List.length_append]
      simp
    have hpfx0 : ((NewLogger h T root d).1.loggers.getD (NewLogger h T root d).2
        zeroLogger).pfx = root := by
      simp only [NewLogger]
      rw [getD_concat_self]
    have hmap0 : (((NewLogger h T root d).1.loggers.getD (NewLogger h T root d).2
        zeroLogger).logger.map LogCore.corePfx)
        = some ("[" ++ ((NewLogger h T root d).1.loggers.getD (NewLogger h T root d).2
            zeroLogger).pfx ++ "] ") := by
      simp only [NewLogger]
      rw [getD_concat_self]
      rfl
    have hres := chain_inv names (NewLogger h T root d).1 (NewLogger h T root d).2 hp0 hmap0
    rw [hpfx0] at hres
    exact ⟨hres.2.1, hres.2.2.1⟩

/-- Witness for C2: a sublogger of a heap-resident logger stores the
concatenated prefix, and the chain `a`, `b`, `c` yields stored prefix
`chainPfx "a" ["b", "c"]`. -/
theorem c2_witness :
    ((NewSubLogger ⟨[zeroLogger], [], []⟩ 0 "kid").1.loggers.getD
        (NewSubLogger ⟨[zeroLogger], [], []⟩ 0 "kid").2 zeroLogger).pfx
      = ((⟨[zeroLogger], [], []⟩ : Heap).loggers.getD 0 zeroLogger).pfx ++ "][" ++ "kid"
    ∧ ((mkLoggerChain ⟨[], [], []⟩ LOG_INFO "a" 0 ["b", "c"]).1.loggers.getD
        (mkLoggerChain ⟨[], [], []⟩ LOG_INFO "a" 0 ["b", "c"]).2 zeroLogger).pfx
      = chainPfx "a" ["b", "c"] :=
  ⟨c2_sublogger_prefix_concat.1 ⟨[zeroLogger], [], []⟩ 0 "kid" (by decide),
   (c2_sublogger_prefix_concat.2 ⟨[], [], []⟩ LOG_INFO "a" 0 ["b", "c"]).1⟩

/-- Claim C5: the logger returned by `NewSubLogger` has exactly the
parent's severity threshold and the parent's destination stream. -/
theorem c5_sublogger_inherits (h : Heap) (p : Nat) (c : String)
    (hp : p < h.loggers.length) :
    ((NewSubLogger h p c).1.loggers.getD (NewSubLogger h p c).2 zeroLogger).logLevel
      = (h.loggers.getD p zeroLogger).logLevel
    ∧ ((NewSubLogger h p c).1.loggers.getD (NewSubLogger h p c).2 zeroLogger).destStream
      = (h.loggers.getD p zeroLogger).destStream :=
  ⟨(subLogger_step h p c hp).2.2.2.1, (subLogger_step h p c hp).2.2.2.2⟩

/-- Witness for C5: a sublogger of a concrete INFO logger inherits its
threshold and destination. -/
theorem c5_witness :
    ((NewSubLogger (NewLogger ⟨[], [], [""]⟩ LOG_INFO "x" 0).1 0 "kid").1.loggers.getD
        (NewSubLogger (NewLogger ⟨[], [], [""]⟩ LOG_INFO "x" 0).1 0 "kid").2
        zeroLogger).logLevel
      = ((NewLogger ⟨[], [], [""]⟩ LOG_INFO "x" 0).1.loggers.getD 0 zeroLogger).logLevel
    ∧ ((NewSubLogger (NewLogger ⟨[], [], [""]⟩ LOG_INFO "x" 0).1 0 "kid").1.loggers.getD
        (NewSubLogger (NewLogger ⟨[], [], [""]⟩ LOG_INFO "x" 0).1 0 "kid").2
        zeroLogger).destStream
      = ((NewLogger ⟨[], [], [""]⟩ LOG_INFO "x" 0).1.loggers.getD 0 zeroLogger).destStream :=
  c5_sublogger_inherits (NewLogger ⟨[], [], [""]⟩ LOG_INFO "x" 0).1 0 "kid" (by decide)

theorem printf_loggers_after (h : Heap) (p : Nat) (msg : String) (S : Nat)
    (t : DateTime) (file : String) (ln : Nat) :
    (Printf h p msg S t file ln).1.loggers = (ensureInited h p).loggers := by
  simp only [Printf]
  split
  · split
    · rfl
    · rfl
  · rfl

/-- Claim C9: calling `Printf` on a `Logger` whose `initialized` flag is
unset never changes the record: `initializeDefaultLogger` assigns only to
the method's local copy of the receiver pointer, so the record (and in
particular its `initialized` flag, still `false`) is untouched. -/
theorem c9_uninitialized_no_mutation (h : Heap) (p : Nat) (msg : String)
    (S : Nat) (t : DateTime) (file : String) (ln : Nat)
    (hp : p < h.loggers.length)
    (hinit : (h.loggers.getD p zeroLogger).inited = false) :
    (Printf h p msg S t file ln).1.loggers.getD p zeroLogger
      = h.loggers.getD p zeroLogger
    ∧ ((Printf h p msg S t file ln).1.loggers.getD p zeroLogger).inited = false := by
  have hl := printf_loggers_after h p msg S t file ln
  have he : (ensureInited h p).loggers.getD p zeroLogger
      = h.loggers.getD p zeroLogger := by
    unfold ensureInited
    rw [hinit]
    show ((initDefaultLogger h p).1).loggers.getD p zeroLogger
      = h.loggers.getD p zeroLogger
    exact getD_append_left _ _ p zeroLogger hp
  refine ⟨?_, ?_⟩
  · rw [hl]
    exact he
  · rw [hl, he, hinit]

/-- Witness for C9: a zero-value `Logger` record stays untouched through a
`Printf` call (here at `LOG_EMERG`, exercising the nil-`logger` path). -/
theorem c9_witness :
    (Printf ⟨[zeroLogger], [], []⟩ 0 "hi" LOG_EMERG ⟨2014, 1, 23, 10, 11, 12⟩
        "main.go" 5).1.loggers.getD 0 zeroLogger
      = (⟨[zeroLogger], [], []⟩ : Heap).loggers.getD 0 zeroLogger
    ∧ ((Printf ⟨[zeroLogger], [], []⟩ 0 "hi" LOG_EMERG ⟨2014, 1, 23, 10, 11, 12⟩
        "main.go" 5).1.loggers.getD 0 zeroLogger).inited = false :=
  c9_uninitialized_no_mutation ⟨[zeroLogger], [], []⟩ 0 "hi" LOG_EMERG
    ⟨2014, 1, 23, 10, 11, 12⟩ "main.go" 5 (by decide) (by decide)

/-- Claim C3: for each of the eight levels, `ParseLogLevel` maps the
lowercase string form (the `String` method's output) back to the level,
and likewise the uppercase form: parsing is case-insensitive. -/
theorem c3_parse_roundtrip_both_cases :
    ∀ l : Fin 8, ParseLogLevel (LogLevelString l.val) = Except.ok l.val
      ∧ ParseLogLevel (goToUpper (LogLevelString l.val)) = Except.ok l.val := by
  decide

/-- Claim C6: any string whose lower-casing is not one of the eight level
names makes `ParseLogLevel` return an error. -/
theorem c6_unrecognized_level_error (s : String)
    (hne : goToLower s ≠ "emerg" ∧ goToLower s ≠ "alert" ∧ goToLower s ≠ "crit"
      ∧ goToLower s ≠ "err" ∧ goToLower s ≠ "warning" ∧ goToLower s ≠ "notice"
      ∧ goToLower s ≠ "info" ∧ goToLower s ≠ "debug") :
    ParseLogLevel s = Except.error ("Invalid log level: " ++ goToLower s) := by
  obtain ⟨h1, h2, h3, h4, h5, h6, h7, h8⟩ := hne
  simp only [ParseLogLevel, if_neg h1, if_neg h2, if_neg h3, if_neg h4, if_neg h5,
    if_neg h6, if_neg h7, if_neg h8]

/-- Witness for C6: the string `bogus` fails to parse. -/
theorem c6_witness :
    ParseLogLevel "bogus" = Except.error ("Invalid log level: " ++ goToLower "bogus") :=
  c6_unrecognized_level_error "bogus" (by decide)

/-- Claim C7: the numeric ordinals of the eight package level constants
are strictly increasing from `LogEmerg` to `LogDebug` (so a lower ordinal
is a higher severity). -/
theorem c7_ordinals_strictly_increasing :
    LogEmerg < LogAlert ∧ LogAlert < LogCrit ∧ LogCrit < LogErr
    ∧ LogErr < LogWarning ∧ LogWarning < LogNotice ∧ LogNotice < LogInfo
    ∧ LogInfo < LogDebug := by
  decide

/-- Counterexample to claim C4: an INFO logger with prefix `example`
logging `hi` at 2014-01-23 10:11:12 writes
`[example] 2014/01/23 10:11:12 hi` (the `log` package renders `Ldate` as
year/month/day), not the claimed `[example] 01/23/2014 10:11:12 hi`
(month/day/year); moreover a DEBUG logger inserts a `file:line: `
component before the message. -/
theorem c4_counterexample :
    (Printf (NewLogger ⟨[], [], [""]⟩ LOG_INFO "example" 0).1
        (NewLogger ⟨[], [], [""]⟩ LOG_INFO "example" 0).2 "hi" LOG_INFO
        ⟨2014, 1, 23, 10, 11, 12⟩ "main.go" 5).1.files.getD 0 ""
      = "[example] 2014/01/23 10:11:12 hi\n"
    ∧ (Printf (NewLogger ⟨[], [], [""]⟩ LOG_INFO "example" 0).1
        (NewLogger ⟨[], [], [""]⟩ LOG_INFO "example" 0).2 "hi" LOG_INFO
        ⟨2014, 1, 23, 10, 11, 12⟩ "main.go" 5).1.files.getD 0 ""
      ≠ "[example] 01/23/2014 10:11:12 hi\n"
    ∧ (Printf (NewLogger ⟨[], [], [""]⟩ LOG_DEBUG "d" 0).1
        (NewLogger ⟨[], [], [""]⟩ LOG_DEBUG "d" 0).2 "hi" LOG_DEBUG
        ⟨2014, 1, 23, 10, 11, 12⟩ "main.go" 5).1.files.getD 0 ""
      = "[d] 2014/01/23 10:11:12 main.go:5: hi\n" := by
  exact ⟨by decide, by decide, by decide⟩

/-- Claim C4 as amended: every line emitted by a logger created with a
threshold other than DEBUG has the exact text format
`[prefix] YYYY/MM/DD HH:MM:SS message` followed by a newline (a DEBUG
logger additionally inserts `file:line: ` before the message, as the
counterexample shows). -/
theorem c4_line_format (h : Heap) (T S : Nat) (pfx msg : String) (d : Nat)
    (t : DateTime) (file : String) (ln : Nat)
    (hdlen : d < h.files.length) (hT : T ≠ LOG_DEBUG) (hS : S ≤ T)
    (hmsg : goHasFinalNewline msg = false) :
    (Printf (NewLogger h T pfx d).1 (NewLogger h T pfx d).2 msg S t file
        ln).1.files.getD d ""
      = h.files.getD d ""
        ++ ("[" ++ pfx ++ "] "
            ++ itoa t.year 4 ++ "/" ++ itoa t.month 2 ++ "/" ++ itoa t.day 2 ++ " "
            ++ itoa t.hour 2 ++ ":" ++ itoa t.minute 2 ++ ":" ++ itoa t.second 2 ++ " "
            ++ msg ++ "\n") := by
  have hres := printf_emit_spec (NewLogger h T pfx d).1 (NewLogger h T pfx d).2
    msg S t file ln
    { corePfx := "[" ++ pfx ++ "] ", flags := flagsOf T, out := h.writers.length }
    h.writers.length d
    (by simp only [NewLogger]; rw [getD_concat_self])
    (by simp only [NewLogger]; rw [getD_concat_self])
    rfl
    (by simp only [NewLogger]; rw [getD_concat_self])
    (by simp only [NewLogger]; rw [List.length_append]; simp)
    (by simp only [NewLogger]; rw [getD_concat_self])
    (by simp only [NewLogger]; rw [getD_concat_self]; exact hS)
  rw [hres]
  have hfiles1 : (NewLogger h T pfx d).1.files = h.files := rfl
  have hbuf : ((NewLogger h T pfx d).1.writers.getD h.writers.length zeroWriter).buf
      = "" := by
    simp only [NewLogger]
    rw [getD_concat_self]
  rw [hfiles1, hbuf, getD_set_self h.files d _ "" hdlen, str_empty_append]
  have hfl : flagsOf T = 3 := by
    unfold flagsOf
    rw [if_neg hT]
    decide
  have hline : logLine ("[" ++ pfx ++ "] ") (flagsOf T) t file ln msg
      = "[" ++ pfx ++ "] "
        ++ itoa t.year 4 ++ "/" ++ itoa t.month 2 ++ "/" ++ itoa t.day 2 ++ " "
        ++ itoa t.hour 2 ++ ":" ++ itoa t.minute 2 ++ ":" ++ itoa t.second 2 ++ " "
        ++ msg ++ "\n" := by
    unfold logLine
    rw [hfl, formatHeader_flags3, hmsg]
    have hnl : (if (false : Bool) = true then ("" : String) else "\n") = "\n" := rfl
    rw [hnl]
    simp only [str_append_assoc]
  rw [hline]

/-- Witness for C4 (amended): the INFO logger of the counterexample emits
exactly the year/month/day-formatted line. -/
theorem c4_witness :
    (Printf (NewLogger ⟨[], [], [""]⟩ LOG_INFO "example" 0).1
        (NewLogger ⟨[], [], [""]⟩ LOG_INFO "example" 0).2 "hi" LOG_INFO
        ⟨2014, 1, 23, 10, 11, 12⟩ "main.go" 5).1.files.getD 0 ""
      = ((⟨[], [], [""]⟩ : Heap).files.getD 0 "")
        ++ ("[" ++ "example" ++ "] "
            ++ itoa 2014 4 ++ "/" ++ itoa 1 2 ++ "/" ++ itoa 23 2 ++ " "
            ++ itoa 10 2 ++ ":" ++ itoa 11 2 ++ ":" ++ itoa 12 2 ++ " "
            ++ "hi" ++ "\n") :=
  c4_line_format ⟨[], [], [""]⟩ LOG_INFO LOG_INFO "example" "hi" 0
    ⟨2014, 1, 23, 10, 11, 12⟩ "main.go" 5 (by decide) (by decide) (by decide)
    (by decide)

/-- Claim C10: the two source copies agree on `ParseLogLevel` and on the
helpers `Debugf`, `Errorf`, `Warningf`, `Infof`, but their `Fatalf`s
diverge: part_000's `Fatalf` passes `LogErr` (3) to `Printf` while
`picolog.go`'s passes `syslog.LOG_CRIT` (2), so on a logger with
threshold `LOG_CRIT` the former writes nothing and the latter emits the
line (part_000's own doc comment says `Fatalf` logs at LOG_CRIT). -/
theorem c10_copies_divergence :
    (∀ s : String, PicologGo.ParseLogLevel s = ParseLogLevel s)
    ∧ (∀ (h : Heap) (l : Nat) (msg : String) (t : DateTime) (file : String)
        (ln : Nat), PicologGo.Debugf h l msg t file ln = Debugf h l msg t file ln)
    ∧ (∀ (h : Heap) (l : Nat) (msg : String) (t : DateTime) (file : String)
        (ln : Nat), PicologGo.Errorf h l msg t file ln = Errorf h l msg t file ln)
    ∧ (∀ (h : Heap) (l : Nat) (msg : String) (t : DateTime) (file : String)
        (ln : Nat), PicologGo.Warningf h l msg t file ln = Warningf h l msg t file ln)
    ∧ (∀ (h : Heap) (l : Nat) (msg : String) (t : DateTime) (file : String)
        (ln : Nat), PicologGo.Infof h l msg t file ln = Infof h l msg t file ln)
    ∧ (Fatalf (NewLogger ⟨[], [], [""]⟩ LOG_CRIT "x" 0).1
        (NewLogger ⟨[], [], [""]⟩ LOG_CRIT "x" 0).2 "boom"
        ⟨2014, 1, 23, 10, 11, 12⟩ "main.go" 5).1.files.getD 0 "" = ""
    ∧ (PicologGo.Fatalf (NewLogger ⟨[], [], [""]⟩ LOG_CRIT "x" 0).1
        (NewLogger ⟨[], [], [""]⟩ LOG_CRIT "x" 0).2 "boom"
        ⟨2014, 1, 23, 10, 11, 12⟩ "main.go" 5).1.files.getD 0 ""
      = "[x] 2014/01/23 10:11:12 boom\n"
    ∧ Fatalf (NewLogger ⟨[], [], [""]⟩ LOG_CRIT "x" 0).1
        (NewLogger ⟨[], [], [""]⟩ LOG_CRIT "x" 0).2 "boom"
        ⟨2014, 1, 23, 10, 11, 12⟩ "main.go" 5
      ≠ PicologGo.Fatalf (NewLogger ⟨[], [], [""]⟩ LOG_CRIT "x" 0).1
        (NewLogger ⟨[], [], [""]⟩ LOG_CRIT "x" 0).2 "boom"
        ⟨2014, 1, 23, 10, 11, 12⟩ "main.go" 5 :=
  ⟨fun _ => rfl, fun _ _ _ _ _ _ => rfl, fun _ _ _ _ _ _ => rfl,
   fun _ _ _ _ _ _ => rfl, fun _ _ _ _ _ _ => rfl, by decide, by decide, by decide⟩
